import Mathlib

/-!
# shp-cli: `buildrun cancel` and `build run`

A shallow embedding of `CancelCommand.Run` (pkg/shp/cmd/buildrun/cancel.go) and
`RunCommand.Run` (pkg/shp/cmd/build/run.go).

Both functions are straight-line orchestration code over external collaborators
(API clients, the two watch-based trackers, the pod log tailer).  The
collaborators are fields of a `Params` record: each is a function giving the
result of the call.  Every call made and every write to the output stream is
recorded, in program order, in a list of events returned next to the result.
Pointers are `Option`s, and a nil dereference is the outcome `panicked`.
The cobra command and its context (cancellation) are not part of the model.
-/

namespace ShpCli

/-! ## Errors -/

/-- Go `error` values as the two commands return them.  `external` is an error
received from a collaborator and returned as it is (collaborators report an
error by its message); `errorf` is a fresh error built by `fmt.Errorf` inside
the command. -/
inductive GoError where
  | external (msg : String)
  | errorf (msg : String)
deriving DecidableEq, Repr

/-- The `Error()` method. -/
def GoError.Error : GoError → String
  | .external msg => msg
  | .errorf msg => msg

/-- Substring test: `needle` occurs in `hay`. -/
def embeds (hay needle : String) : Prop := needle.data <:+: hay.data

instance (hay needle : String) : Decidable (embeds hay needle) := by
  unfold embeds; infer_instance

/-! ## API objects -/

/-- Values of `corev1.ConditionStatus` (k8s.io/api/core/v1). -/
def ConditionTrue : String := "True"

/-- Values of `corev1.ConditionStatus` (k8s.io/api/core/v1). -/
def ConditionFalse : String := "False"

/-- Values of `corev1.ConditionStatus` (k8s.io/api/core/v1). -/
def ConditionUnknown : String := "Unknown"

/-- The condition type `buildv1alpha1.Succeeded`. -/
def Succeeded : String := "Succeeded"

/-- A `buildv1alpha1.Condition`; both fields are free-form strings. -/
structure Condition where
  Type_ : String
  Status : String
deriving DecidableEq, Repr

/-- The accessor `(*Condition).GetStatus`. -/
def Condition.GetStatus (c : Condition) : String := c.Status

/-- The `buildv1alpha1.BuildRunStatus` fields read by the two commands. -/
structure BuildRunStatus where
  Conditions : List Condition := []
  LatestTaskRunRef : Option String := none
deriving DecidableEq, Repr

/-- The accessor `(*BuildRunStatus).GetCondition`: the first condition of the
given type, nil when there is none. -/
def BuildRunStatus.GetCondition (s : BuildRunStatus) (t : String) : Option Condition :=
  s.Conditions.find? (fun c => c.Type_ == t)

/-- A `buildv1alpha1.BuildRun`.  The spec payload `σ` is opaque here.
`DeletionTimestamp` is a `*metav1.Time`. -/
structure BuildRun (σ : Type) where
  Name : String := ""
  GenerateName : String := ""
  Namespace : String := ""
  DeletionTimestamp : Option Nat := none
  Spec : σ
  Status : BuildRunStatus := {}
deriving DecidableEq, Repr

/-- The Tekton `TaskRun` fields read by `RunCommand.Run`. -/
structure TaskRunStatus where
  PodName : String := ""
deriving DecidableEq, Repr

/-- A Tekton `TaskRun`. -/
structure TaskRun where
  Name : String := ""
  DeletionTimestamp : Option Nat := none
  Status : TaskRunStatus := {}
deriving DecidableEq, Repr

/-- The patch content types of k8s.io/apimachinery/pkg/types. -/
inductive PatchType where
  | JSONPatchType
  | MergePatchType
  | StrategicMergePatchType
  | ApplyPatchType
deriving DecidableEq, Repr

/-! ## `json.Marshal` of the patch payload -/

/-- The local type `patchStringValue` of `CancelCommand.Run`, with its JSON
keys `op`, `path`, `value` in declaration order. -/
structure patchStringValue where
  Op : String
  Path : String
  Value : String
deriving DecidableEq, Repr

/-- The digits used by encoding/json for `\u00XX` escapes. -/
def hex : List Char := "0123456789abcdef".data

/-- The backslash character. -/
def backslash : Char := Char.ofNat 92

/-- The double quote character. -/
def dquote : Char := Char.ofNat 34

/-- The table `htmlSafeSet` of encoding/json on ASCII: printable characters
other than the double quote, the backslash, and the HTML characters. -/
def htmlSafe (c : Char) : Bool :=
  decide (32 ≤ c.toNat) && decide (c.toNat < 128) && !(c.toNat == 34) && !(c.toNat == 92)
    && !(c.toNat == 60) && !(c.toNat == 62) && !(c.toNat == 38)

/-- One character of a JSON string as encoding/json writes it with HTML
escaping on (the default of `json.Marshal`): safe ASCII is copied, the quote
and the backslash get a backslash, newline, carriage return and tab their short
escape, every other ASCII character a `\u00XX` escape (Go releases from 1.22 on
shorten the escapes of backspace and form feed), the line and paragraph
separators a `\u202X` escape, and every other character is copied. -/
def jsonChar (c : Char) : List Char :=
  if c.toNat < 128 then
    if htmlSafe c then [c]
    else if c.toNat == 92 || c.toNat == 34 then [backslash, c]
    else if c.toNat == 10 then [backslash, 'n']
    else if c.toNat == 13 then [backslash, 'r']
    else if c.toNat == 9 then [backslash, 't']
    else [backslash, 'u', '0', '0', hex.getD (c.toNat / 16) '0', hex.getD (c.toNat % 16) '0']
  else if c.toNat == 8232 || c.toNat == 8233 then
    [backslash, 'u', '2', '0', '2', hex.getD (c.toNat % 16) '0']
  else [c]

/-- A string value as a JSON string literal. -/
def jsonString (s : String) : String :=
  ⟨dquote :: (s.data.flatMap jsonChar ++ [dquote])⟩

/-- One `patchStringValue` as a JSON object. -/
def patchStringValue.marshal (p : patchStringValue) : String :=
  "\x7b" ++ jsonString "op" ++ ":" ++ jsonString p.Op ++ "," ++
    jsonString "path" ++ ":" ++ jsonString p.Path ++ "," ++
    jsonString "value" ++ ":" ++ jsonString p.Value ++ "\x7d"

/-- The call `json.Marshal` on a `[]patchStringValue`: a JSON array.  It cannot
fail on this type. -/
def Marshal (payload : List patchStringValue) : String :=
  "[" ++ ",".intercalate (payload.map patchStringValue.marshal) ++ "]"

/-! ## `buildrun cancel` -/

/-- What `CancelCommand.Run` reaches through `params`: the Shipwright client
set (nil error on success), the namespace, and the `Get` and `Patch` calls of
the BuildRun client (arguments: namespace, name, and for `Patch` the content
type and the document). -/
structure CancelParams (σ : Type) where
  ShipwrightClientSet : Option String
  Namespace : String
  Get : String → String → Except String (BuildRun σ)
  Patch : String → String → PatchType → String → Except String (BuildRun σ)

/-- Observable actions of `CancelCommand.Run`. -/
inductive CancelEvent where
  | get (ns name : String)
  | patch (ns name : String) (pt : PatchType) (data : String)
  | fprintf (msg : String)
deriving DecidableEq, Repr

/-- The `CancelCommand` receiver: the run name set by `Complete`. -/
structure CancelCommand where
  name : String
deriving DecidableEq, Repr

/-- The method `CancelCommand.Run`.  `BuildRunStateCancel` is the constant
`buildv1alpha1.BuildRunStateCancel`. -/
def CancelCommand.Run {σ : Type} (c : CancelCommand) (BuildRunStateCancel : String)
    (params : CancelParams σ) : Option GoError × List CancelEvent :=
  match params.ShipwrightClientSet with
  | some err => (some (.external err), [])
  | none =>
    match params.Get params.Namespace c.name with
    | .error err =>
      (some (.errorf ("failed to retrieve BuildRun " ++ c.name ++ ": " ++ err)),
        [.get params.Namespace c.name])
    | .ok br =>
      let cond := br.Status.GetCondition Succeeded
      if (match cond with
          | none => false
          | some cd => cd.GetStatus != ConditionUnknown) then
        (some (.errorf ("failed to cancel BuildRun " ++ c.name ++
            ": execution has already finished")),
          [.get params.Namespace c.name])
      else
        let payload : List patchStringValue :=
          [{ Op := "replace", Path := "/spec/state", Value := BuildRunStateCancel }]
        let data := Marshal payload
        match params.Patch params.Namespace c.name PatchType.JSONPatchType data with
        | .error err =>
          (some (.external err),
            [.get params.Namespace c.name,
             .patch params.Namespace c.name PatchType.JSONPatchType data])
        | .ok _ =>
          (none,
            [.get params.Namespace c.name,
             .patch params.Namespace c.name PatchType.JSONPatchType data,
             .fprintf ("BuildRun successfully canceled " ++ "\x27" ++ c.name ++ "\x27" ++ "\n")])

/-- The patch calls recorded in a trace. -/
def patchCalls (t : List CancelEvent) : List CancelEvent :=
  t.filter (fun e => match e with
    | .patch _ _ _ _ => true
    | _ => false)

/-! ## `build run` -/

/-- What `RunCommand.Run` reaches outside itself.
* `SanitizeBuildRunSpec`: the in-place clean-up `flags.SanitizeBuildRunSpec`.
* `Create`: the call `buildRunResource.Create`, which fills the object in
  place; it gives the object as left by the call and the error (nil on success).
* `waitForBuildRunToHaveTaskRun`, `WaitForTaskRunToHavePod`: the run tracker and
  the task tracker, called with a name; each gives a pointer and an error.
* `ClientSet`: the call `params.ClientSet` (nil error on success).
* `Tail`: the call `pod.Tail` with pod name, task-run name and namespace; its
  outcome is the failure of the log attacher, if any.
* `Quote`: the `%q` verb of package fmt. -/
structure RunParams (σ : Type) where
  SanitizeBuildRunSpec : σ → σ
  Create : BuildRun σ → BuildRun σ × Option String
  waitForBuildRunToHaveTaskRun : String → Option (BuildRun σ) × Option String
  WaitForTaskRunToHavePod : String → Option TaskRun × Option String
  ClientSet : Option String
  Tail : String → String → String → Option String
  Quote : String → String

/-- Observable actions of `RunCommand.Run`. -/
inductive RunEvent (σ : Type) where
  | create (br : BuildRun σ)
  | fprintf (msg : String)
  | runTracker (name : String)
  | taskTracker (name : String)
  | clientSet
  | tail (podName taskRunName ns : String)
deriving DecidableEq, Repr

/-- How a call of `RunCommand.Run` ends: it returns an error (nil on success),
or it panics on a nil pointer. -/
inductive Outcome where
  | returned (err : Option GoError)
  | panicked
deriving DecidableEq, Repr

/-- The `RunCommand` receiver: `buildRunSpec` is a pointer. -/
structure RunCommand (σ : Type) where
  buildName : String
  buildRunSpec : Option σ
  Follow : Bool

/-- Pointer dereference inside a computation: a nil pointer panics, with the
events recorded so far. -/
def deref {α ε : Type} (p : Option α) (done : List ε)
    (k : α → Outcome × List ε) : Outcome × List ε :=
  match p with
  | none => (.panicked, done)
  | some a => k a

/-- The object `RunCommand.Run` builds before the create call: the generated
name prefix, the spec taken from the flags, then sanitised in place. -/
def RunCommand.newBuildRun {σ : Type} (r : RunCommand σ) (params : RunParams σ)
    (spec : σ) : BuildRun σ :=
  let br : BuildRun σ := { GenerateName := r.buildName ++ "-", Spec := spec }
  { br with Spec := params.SanitizeBuildRunSpec br.Spec }

/-- The method `RunCommand.Run`. -/
def RunCommand.Run {σ : Type} (r : RunCommand σ) (params : RunParams σ) :
    Outcome × List (RunEvent σ) :=
  deref r.buildRunSpec [] fun spec =>
  let br : BuildRun σ := r.newBuildRun params spec
  let created := params.Create br
  let t1 : List (RunEvent σ) := [.create br]
  match created.2 with
  | some err => (.returned (some (.external err)), t1)
  | none =>
  let br := created.1
  if !r.Follow then
    (.returned none,
      t1 ++ [.fprintf ("BuildRun created " ++ params.Quote br.Name ++ " for build " ++
        params.Quote r.buildName ++ "\n")])
  else
  let tracked := params.waitForBuildRunToHaveTaskRun br.Name
  let t2 := t1 ++ [.runTracker br.Name]
  let br : Option (BuildRun σ) := tracked.1
  match tracked.2 with
  | some err => (.returned (some (.external err)), t2)
  | none =>
  if br.isNone then
    (.returned (some (.errorf "build run watch function exitted unexpectedly")), t2)
  else
  deref br t2 fun b =>
  if b.DeletionTimestamp.isSome then
    (.returned (some (.errorf ("build run " ++ b.Name ++
      " was deleted before it terminated"))), t2)
  else
  if b.Status.LatestTaskRunRef.isNone then
    (.returned (some (.errorf ("build run " ++ b.Name ++
      " terminated before task run ref was set, inspect build run status for details"))), t2)
  else
  deref b.Status.LatestTaskRunRef t2 fun taskRunName =>
  let tracked := params.WaitForTaskRunToHavePod taskRunName
  let t3 := t2 ++ [.taskTracker taskRunName]
  let tr : Option TaskRun := tracked.1
  match tracked.2 with
  | some err => (.returned (some (.external err)), t3)
  | none =>
  if tr.isNone then
    (.returned (some (.errorf "task run watch function exitted unexpectedly")), t3)
  else
  deref tr t3 fun task =>
  if task.DeletionTimestamp.isSome then
    (.returned (some (.errorf ("task run " ++ task.Name ++
      " was deleted before it terminated"))), t3)
  else
  let podName := task.Status.PodName
  let t4 := t3 ++ [.clientSet]
  match params.ClientSet with
  | some err => (.returned (some (.errorf ("could not build k8s client: " ++ err))), t4)
  | none =>
  (.returned none, t4 ++ [.tail podName taskRunName b.Namespace])

/-- The tracker and attacher calls recorded in a trace, in order. -/
def followSteps {σ : Type} (t : List (RunEvent σ)) : List (RunEvent σ) :=
  t.filter (fun e => match e with
    | .runTracker _ => true
    | .taskTracker _ => true
    | .tail _ _ _ => true
    | _ => false)

/-- The writes to the output stream recorded in a trace, in order. -/
def writes {σ : Type} (t : List (RunEvent σ)) : List String :=
  t.filterMap (fun e => match e with
    | .fprintf msg => some msg
    | _ => none)

/-! ## Notions used in the statements -/

/-- The error of the already-finished rejection for a run name. -/
def alreadyFinished (name : String) : GoError :=
  .errorf ("failed to cancel BuildRun " ++ name ++ ": execution has already finished")

/-- The patch document for a sentinel value. -/
def cancelPayload (sentinel : String) : List patchStringValue :=
  [{ Op := "replace", Path := "/spec/state", Value := sentinel }]

/-- The guard of the already-finished rejection. -/
def finishedGuard (cond : Option Condition) : Bool :=
  match cond with
  | none => false
  | some cd => cd.GetStatus != ConditionUnknown

/-! ## Fixtures -/

/-- A run named `demo` in namespace `ns` with the given conditions. -/
def demoRun (conds : List Condition) : BuildRun Unit :=
  { Name := "demo", Namespace := "ns", Spec := (), Status := { Conditions := conds } }

/-- Collaborators that work: `Get` finds `demoRun conds`, `Patch` succeeds. -/
def demoCancelParams (conds : List Condition) : CancelParams Unit :=
  { ShipwrightClientSet := none
    Namespace := "ns"
    Get := fun _ _ => .ok (demoRun conds)
    Patch := fun _ _ _ _ => .ok (demoRun conds) }

/-- Collaborators whose client set cannot be built. -/
def noClientParams : CancelParams Unit :=
  { ShipwrightClientSet := some "invalid configuration: no configuration has been provided"
    Namespace := "ns"
    Get := fun _ _ => .ok (demoRun [])
    Patch := fun _ _ _ _ => .ok (demoRun []) }

/-- The `%q` rendering of a name made of plain letters, digits and dashes. -/
def plainQuote (s : String) : String := "\"" ++ s ++ "\""

/-- Collaborators of `build run` for the build `demo`: the create call names
the run `demo-xyz` in namespace `ns` (or fails with `createErr`), the trackers
and the log attacher answer as given, the Kubernetes client is built. -/
def demoRunParams (createErr : Option String)
    (runRes : Option (BuildRun Unit) × Option String)
    (taskRes : Option TaskRun × Option String) (tailRes : Option String) : RunParams Unit :=
  { SanitizeBuildRunSpec := fun spec => spec
    Create := fun br => ({ br with Name := br.GenerateName ++ "xyz", Namespace := "ns" },
      createErr)
    waitForBuildRunToHaveTaskRun := fun _ => runRes
    WaitForTaskRunToHavePod := fun _ => taskRes
    ClientSet := none
    Tail := fun _ _ _ => tailRes
    Quote := plainQuote }

/-- The command `build run demo`, with or without `--follow`. -/
def demoCommand (follow : Bool) : RunCommand Unit :=
  { buildName := "demo", buildRunSpec := some (), Follow := follow }

/-- The run `demo-xyz` as the run tracker returns it once its task run
`demo-xyz-task` is known. -/
def trackedRun : BuildRun Unit :=
  { Name := "demo-xyz", GenerateName := "demo-", Namespace := "ns", Spec := (),
    Status := { LatestTaskRunRef := some "demo-xyz-task" } }

/-- The task run `demo-xyz-task` with the given pod name, not deleted. -/
def trackedTask (pod : String) : TaskRun :=
  { Name := "demo-xyz-task", Status := { PodName := pod } }

/-! ## Facts about messages -/

theorem embeds_mid (a n b : String) : embeds (a ++ n ++ b) n := by
  unfold embeds
  simp only [String.data_append]
  exact ⟨a.data, b.data, rfl⟩

theorem retrieve_ne_cancel (n e m : String) :
    "failed to retrieve BuildRun " ++ n ++ ": " ++ e ≠ "failed to cancel BuildRun " ++ m := by
  intro h
  have h2 := congrArg (fun s : String => s.data.take 11) h
  simp [String.data_append] at h2

theorem Marshal_single (p : patchStringValue) :
    Marshal [p] = "[\x7b\"op\":" ++ jsonString p.Op ++ ",\"path\":" ++ jsonString p.Path ++
      ",\"value\":" ++ jsonString p.Value ++ "\x7d]" := by
  have h1 : jsonString "op" = "\"op\"" := by decide
  have h2 : jsonString "path" = "\"path\"" := by decide
  have h3 : jsonString "value" = "\"value\"" := by decide
  apply String.ext
  simp [Marshal, patchStringValue.marshal, String.intercalate, String.intercalate.go,
    String.data_append, h1, h2, h3]

/-! ## The paths of `CancelCommand.Run` -/

theorem finishedGuard_false (cond : Option Condition) :
    finishedGuard cond = false ↔
      (cond = none ∨ ∃ cd, cond = some cd ∧ cd.Status = ConditionUnknown) := by
  cases cond with
  | none => simp [finishedGuard]
  | some cd => simp [finishedGuard, Condition.GetStatus]

theorem finishedGuard_true (cond : Option Condition) :
    finishedGuard cond = true ↔ ∃ cd, cond = some cd ∧ cd.Status ≠ ConditionUnknown := by
  cases cond with
  | none => simp [finishedGuard]
  | some cd => simp [finishedGuard, Condition.GetStatus]

theorem Run_noClient {σ : Type} (c : CancelCommand) (s : String) (params : CancelParams σ)
    (err : String) (hcs : params.ShipwrightClientSet = some err) :
    c.Run s params = (some (.external err), []) := by
  simp [CancelCommand.Run, hcs]

theorem Run_getFails {σ : Type} (c : CancelCommand) (s : String) (params : CancelParams σ)
    (err : String) (hcs : params.ShipwrightClientSet = none)
    (hget : params.Get params.Namespace c.name = .error err) :
    c.Run s params =
      (some (.errorf ("failed to retrieve BuildRun " ++ c.name ++ ": " ++ err)),
        [.get params.Namespace c.name]) := by
  simp [CancelCommand.Run, hcs, hget]

theorem Run_finished {σ : Type} (c : CancelCommand) (s : String) (params : CancelParams σ)
    (br : BuildRun σ) (hcs : params.ShipwrightClientSet = none)
    (hget : params.Get params.Namespace c.name = .ok br)
    (hg : finishedGuard (br.Status.GetCondition Succeeded) = true) :
    c.Run s params = (some (alreadyFinished c.name), [.get params.Namespace c.name]) := by
  unfold finishedGuard at hg
  simp [CancelCommand.Run, hcs, hget, hg, alreadyFinished]

theorem Run_patchFails {σ : Type} (c : CancelCommand) (s : String) (params : CancelParams σ)
    (br : BuildRun σ) (err : String) (hcs : params.ShipwrightClientSet = none)
    (hget : params.Get params.Namespace c.name = .ok br)
    (hg : finishedGuard (br.Status.GetCondition Succeeded) = false)
    (hp : params.Patch params.Namespace c.name .JSONPatchType (Marshal (cancelPayload s))
      = .error err) :
    c.Run s params = (some (.external err),
      [.get params.Namespace c.name,
       .patch params.Namespace c.name .JSONPatchType (Marshal (cancelPayload s))]) := by
  unfold finishedGuard at hg
  unfold cancelPayload at hp
  simp [CancelCommand.Run, hcs, hget, hg, hp, cancelPayload]

theorem Run_patched {σ : Type} (c : CancelCommand) (s : String) (params : CancelParams σ)
    (br res : BuildRun σ) (hcs : params.ShipwrightClientSet = none)
    (hget : params.Get params.Namespace c.name = .ok br)
    (hg : finishedGuard (br.Status.GetCondition Succeeded) = false)
    (hp : params.Patch params.Namespace c.name .JSONPatchType (Marshal (cancelPayload s))
      = .ok res) :
    c.Run s params = (none,
      [.get params.Namespace c.name,
       .patch params.Namespace c.name .JSONPatchType (Marshal (cancelPayload s)),
       .fprintf ("BuildRun successfully canceled " ++ "\x27" ++ c.name ++ "\x27" ++ "\n")]) := by
  unfold finishedGuard at hg
  unfold cancelPayload at hp
  simp [CancelCommand.Run, hcs, hget, hg, hp, cancelPayload]

/-- Every call of `CancelCommand.Run` takes one of its five paths. -/
theorem Run_paths {σ : Type} (c : CancelCommand) (s : String) (params : CancelParams σ) :
    (∃ err, params.ShipwrightClientSet = some err ∧
        c.Run s params = (some (.external err), [])) ∨
    (∃ err, params.ShipwrightClientSet = none ∧
        params.Get params.Namespace c.name = .error err ∧
        c.Run s params =
          (some (.errorf ("failed to retrieve BuildRun " ++ c.name ++ ": " ++ err)),
            [.get params.Namespace c.name])) ∨
    (∃ br, params.ShipwrightClientSet = none ∧
        params.Get params.Namespace c.name = .ok br ∧
        finishedGuard (br.Status.GetCondition Succeeded) = true ∧
        c.Run s params = (some (alreadyFinished c.name), [.get params.Namespace c.name])) ∨
    (∃ br err, params.ShipwrightClientSet = none ∧
        params.Get params.Namespace c.name = .ok br ∧
        finishedGuard (br.Status.GetCondition Succeeded) = false ∧
        params.Patch params.Namespace c.name .JSONPatchType (Marshal (cancelPayload s))
          = .error err ∧
        c.Run s params = (some (.external err),
          [.get params.Namespace c.name,
           .patch params.Namespace c.name .JSONPatchType (Marshal (cancelPayload s))])) ∨
    (∃ br res, params.ShipwrightClientSet = none ∧
        params.Get params.Namespace c.name = .ok br ∧
        finishedGuard (br.Status.GetCondition Succeeded) = false ∧
        params.Patch params.Namespace c.name .JSONPatchType (Marshal (cancelPayload s))
          = .ok res ∧
        c.Run s params = (none,
          [.get params.Namespace c.name,
           .patch params.Namespace c.name .JSONPatchType (Marshal (cancelPayload s)),
           .fprintf ("BuildRun successfully canceled " ++ "\x27" ++ c.name ++ "\x27" ++
             "\n")])) := by
  cases hcs : params.ShipwrightClientSet with
  | some err => exact Or.inl ⟨err, rfl, Run_noClient c s params err hcs⟩
  | none =>
    cases hget : params.Get params.Namespace c.name with
    | error err => exact Or.inr (Or.inl ⟨err, rfl, rfl, Run_getFails c s params err hcs hget⟩)
    | ok br =>
      cases hg : finishedGuard (br.Status.GetCondition Succeeded) with
      | true =>
        exact Or.inr (Or.inr (Or.inl ⟨br, rfl, rfl, hg, Run_finished c s params br hcs hget hg⟩))
      | false =>
        cases hp : params.Patch params.Namespace c.name .JSONPatchType
            (Marshal (cancelPayload s)) with
        | error err =>
          exact Or.inr (Or.inr (Or.inr (Or.inl
            ⟨br, err, rfl, rfl, hg, rfl, Run_patchFails c s params br err hcs hget hg hp⟩)))
        | ok res =>
          exact Or.inr (Or.inr (Or.inr (Or.inr
            ⟨br, res, rfl, rfl, hg, rfl, Run_patched c s params br res hcs hget hg hp⟩)))

/-! ## Theorems: `buildrun cancel` -/

/-- C1: when the client is built, the run is fetched and its Succeeded
condition is present with status True or False, `CancelCommand.Run` returns
the already-finished error and makes no Patch call. -/
theorem cancel_finished_rejected {σ : Type} (c : CancelCommand) (s : String)
    (params : CancelParams σ) (br : BuildRun σ) (cd : Condition)
    (hcs : params.ShipwrightClientSet = none)
    (hget : params.Get params.Namespace c.name = .ok br)
    (hcond : br.Status.GetCondition Succeeded = some cd)
    (hst : cd.Status = ConditionTrue ∨ cd.Status = ConditionFalse) :
    (c.Run s params).1 = some (alreadyFinished c.name) ∧
      patchCalls (c.Run s params).2 = [] := by
  have hne : cd.Status ≠ ConditionUnknown := by
    rcases hst with h | h <;> rw [h] <;> decide
  rw [Run_finished c s params br hcs hget ((finishedGuard_true _).2 ⟨cd, hcond, hne⟩)]
  exact ⟨rfl, by simp [patchCalls]⟩

theorem cancel_finished_rejected_witness :
    (demoCancelParams [⟨"Succeeded", "False"⟩]).ShipwrightClientSet = none ∧
    ((⟨"demo"⟩ : CancelCommand).Run "BuildRunCanceled"
        (demoCancelParams [⟨"Succeeded", "False"⟩])).1 = some (alreadyFinished "demo") ∧
      patchCalls ((⟨"demo"⟩ : CancelCommand).Run "BuildRunCanceled"
        (demoCancelParams [⟨"Succeeded", "False"⟩])).2 = [] :=
  ⟨rfl, cancel_finished_rejected ⟨"demo"⟩ "BuildRunCanceled"
    (demoCancelParams [⟨"Succeeded", "False"⟩]) (demoRun [⟨"Succeeded", "False"⟩])
    ⟨"Succeeded", "False"⟩ rfl rfl (by decide) (Or.inr rfl)⟩

/-- C2: when the client is built, the run is fetched and its Succeeded
condition is absent or has status Unknown, `CancelCommand.Run` makes exactly
one Patch call, on the same namespace and name, whose document is the payload
with the sentinel as value; and if that call succeeds, Run returns nil and
writes a message that contains the run name. -/
theorem cancel_unfinished_patches_once {σ : Type} (c : CancelCommand) (s : String)
    (params : CancelParams σ) (br : BuildRun σ)
    (hcs : params.ShipwrightClientSet = none)
    (hget : params.Get params.Namespace c.name = .ok br)
    (hcond : br.Status.GetCondition Succeeded = none ∨
      ∃ cd, br.Status.GetCondition Succeeded = some cd ∧ cd.Status = ConditionUnknown) :
    patchCalls (c.Run s params).2 =
        [.patch params.Namespace c.name .JSONPatchType (Marshal (cancelPayload s))] ∧
      (∀ res, params.Patch params.Namespace c.name .JSONPatchType (Marshal (cancelPayload s))
          = .ok res →
        (c.Run s params).1 = none ∧
        ∃ msg, CancelEvent.fprintf msg ∈ (c.Run s params).2 ∧ embeds msg c.name) := by
  have hg := (finishedGuard_false _).2 hcond
  constructor
  · cases hp : params.Patch params.Namespace c.name .JSONPatchType
        (Marshal (cancelPayload s)) with
    | error err => rw [Run_patchFails c s params br err hcs hget hg hp]; simp [patchCalls]
    | ok res => rw [Run_patched c s params br res hcs hget hg hp]; simp [patchCalls]
  · intro res hres
    rw [Run_patched c s params br res hcs hget hg hres]
    refine ⟨rfl, "BuildRun successfully canceled " ++ "\x27" ++ c.name ++ "\x27" ++ "\n",
      by simp, ?_⟩
    rw [String.append_assoc]
    exact embeds_mid _ _ _

theorem cancel_unfinished_patches_once_witness :
    (demoRun []).Status.GetCondition Succeeded = none ∧
    patchCalls ((⟨"demo"⟩ : CancelCommand).Run "BuildRunCanceled" (demoCancelParams [])).2 =
        [.patch "ns" "demo" .JSONPatchType (Marshal (cancelPayload "BuildRunCanceled"))] ∧
      ((⟨"demo"⟩ : CancelCommand).Run "BuildRunCanceled" (demoCancelParams [])).1 = none :=
  ⟨by decide,
    (cancel_unfinished_patches_once ⟨"demo"⟩ "BuildRunCanceled" (demoCancelParams [])
      (demoRun []) rfl rfl (Or.inl (by decide))).1,
    ((cancel_unfinished_patches_once ⟨"demo"⟩ "BuildRunCanceled" (demoCancelParams [])
      (demoRun []) rfl rfl (Or.inl (by decide))).2 (demoRun []) rfl).1⟩

/-- C3: every Patch call made by `CancelCommand.Run` uses the JSON-Patch
content type and carries the document
`[{"op":"replace","path":"/spec/state","value":<sentinel>}]`: one operation,
keys in the order op, path, value, the sentinel written as a JSON string.  The
document is the same for every run name and every answer of the collaborators. -/
theorem cancel_patch_document {σ : Type} (c c2 : CancelCommand) (s : String)
    (params params2 : CancelParams σ) (ns name data ns2 name2 data2 : String)
    (pt pt2 : PatchType)
    (h : CancelEvent.patch ns name pt data ∈ (c.Run s params).2)
    (h2 : CancelEvent.patch ns2 name2 pt2 data2 ∈ (c2.Run s params2).2) :
    pt = .JSONPatchType ∧
      data = Marshal [{ Op := "replace", Path := "/spec/state", Value := s }] ∧
      data = "[\x7b\"op\":\"replace\",\"path\":\"/spec/state\",\"value\":" ++
        jsonString s ++ "\x7d]" ∧
      data2 = data := by
  have key : ∀ (c : CancelCommand) (params : CancelParams σ) (ns name data : String)
      (pt : PatchType), CancelEvent.patch ns name pt data ∈ (c.Run s params).2 →
      pt = .JSONPatchType ∧
        data = Marshal [{ Op := "replace", Path := "/spec/state", Value := s }] := by
    intro c params ns name data pt h
    rcases Run_paths c s params with ⟨_, _, e⟩ | ⟨_, _, _, e⟩ | ⟨_, _, _, _, e⟩ |
      ⟨_, _, _, _, _, _, e⟩ | ⟨_, _, _, _, _, _, e⟩ <;> rw [e] at h <;>
      simp [cancelPayload] at h ⊢
    · exact ⟨h.2.2.1, h.2.2.2⟩
    · exact ⟨h.2.2.1, h.2.2.2⟩
  have hr : jsonString "replace" = "\"replace\"" := by decide
  have hp : jsonString "/spec/state" = "\"/spec/state\"" := by decide
  obtain ⟨e1, e2⟩ := key c params ns name data pt h
  obtain ⟨_, e4⟩ := key c2 params2 ns2 name2 data2 pt2 h2
  refine ⟨e1, e2, ?_, by rw [e2, e4]⟩
  rw [e2, Marshal_single, hr, hp]
  apply String.ext
  simp [String.data_append]

theorem cancel_patch_document_witness :
    CancelEvent.patch "ns" "demo" .JSONPatchType
        "[\x7b\"op\":\"replace\",\"path\":\"/spec/state\",\"value\":\"BuildRunCanceled\"\x7d]"
      ∈ ((⟨"demo"⟩ : CancelCommand).Run "BuildRunCanceled" (demoCancelParams [])).2 ∧
    PatchType.JSONPatchType = .JSONPatchType ∧
    "[\x7b\"op\":\"replace\",\"path\":\"/spec/state\",\"value\":\"BuildRunCanceled\"\x7d]" =
      "[\x7b\"op\":\"replace\",\"path\":\"/spec/state\",\"value\":" ++
        jsonString "BuildRunCanceled" ++ "\x7d]" :=
  ⟨by decide,
    (cancel_patch_document ⟨"demo"⟩ ⟨"demo"⟩ "BuildRunCanceled" (demoCancelParams [])
      (demoCancelParams []) "ns" "demo"
      "[\x7b\"op\":\"replace\",\"path\":\"/spec/state\",\"value\":\"BuildRunCanceled\"\x7d]"
      "ns" "demo"
      "[\x7b\"op\":\"replace\",\"path\":\"/spec/state\",\"value\":\"BuildRunCanceled\"\x7d]"
      .JSONPatchType .JSONPatchType
      (by decide) (by decide)).1,
    (cancel_patch_document ⟨"demo"⟩ ⟨"demo"⟩ "BuildRunCanceled" (demoCancelParams [])
      (demoCancelParams []) "ns" "demo"
      "[\x7b\"op\":\"replace\",\"path\":\"/spec/state\",\"value\":\"BuildRunCanceled\"\x7d]"
      "ns" "demo"
      "[\x7b\"op\":\"replace\",\"path\":\"/spec/state\",\"value\":\"BuildRunCanceled\"\x7d]"
      .JSONPatchType .JSONPatchType
      (by decide) (by decide)).2.2.1⟩

/-- C8, refuted as stated: when the client set cannot be built, the error
returned for the run `demo` is the client error itself, and its message does
not contain `demo`. -/
theorem cancel_error_without_name :
    ((⟨"demo"⟩ : CancelCommand).Run "BuildRunCanceled" noClientParams).1 =
        some (.external "invalid configuration: no configuration has been provided") ∧
      ¬ embeds (GoError.external
        "invalid configuration: no configuration has been provided").Error "demo" := by
  decide

/-- C8, amended: an error returned by `CancelCommand.Run` is either built by
Run itself (the get failure, the already-finished rejection), and then its
message contains the run name, or it is the error of the client construction
or of the Patch call, returned unchanged. -/
theorem cancel_errors_name_or_passed {σ : Type} (c : CancelCommand) (s : String)
    (params : CancelParams σ) (e : GoError) (h : (c.Run s params).1 = some e) :
    ((∃ msg, e = .errorf msg) ∧ embeds e.Error c.name) ∨
      (∃ msg, e = .external msg ∧ params.ShipwrightClientSet = some msg) ∨
      (∃ msg, e = .external msg ∧
        params.Patch params.Namespace c.name .JSONPatchType (Marshal (cancelPayload s))
          = .error msg) := by
  rcases Run_paths c s params with ⟨err, hcs, e1⟩ | ⟨err, _, _, e1⟩ | ⟨_, _, _, _, e1⟩ |
    ⟨_, err, _, _, _, hp, e1⟩ | ⟨_, _, _, _, _, _, e1⟩ <;> rw [e1] at h <;> simp at h
  · exact Or.inr (Or.inl ⟨err, h.symm, hcs⟩)
  · subst h
    refine Or.inl ⟨⟨_, rfl⟩, ?_⟩
    simp only [GoError.Error]
    rw [String.append_assoc]
    exact embeds_mid _ _ _
  · subst h
    exact Or.inl ⟨⟨_, rfl⟩, embeds_mid _ _ _⟩
  · exact Or.inr (Or.inr ⟨err, h.symm, hp⟩)

theorem cancel_errors_name_or_passed_witness :
    ((∃ msg, alreadyFinished "demo" = .errorf msg) ∧
        embeds (alreadyFinished "demo").Error "demo") ∨
      (∃ msg, alreadyFinished "demo" = .external msg ∧
        (demoCancelParams [⟨"Succeeded", "True"⟩]).ShipwrightClientSet = some msg) ∨
      (∃ msg, alreadyFinished "demo" = .external msg ∧
        (demoCancelParams [⟨"Succeeded", "True"⟩]).Patch "ns" "demo" .JSONPatchType
          (Marshal (cancelPayload "BuildRunCanceled")) = .error msg) :=
  cancel_errors_name_or_passed ⟨"demo"⟩ "BuildRunCanceled"
    (demoCancelParams [⟨"Succeeded", "True"⟩]) (alreadyFinished "demo") (by decide)

/-- C10, refuted as stated: a fetched run whose Succeeded condition has the
empty status is rejected as already finished, although the status is neither
True nor False. -/
theorem cancel_rejects_other_status :
    ((⟨"demo"⟩ : CancelCommand).Run "BuildRunCanceled"
        (demoCancelParams [⟨"Succeeded", ""⟩])).1 = some (alreadyFinished "demo") ∧
      (demoRun [⟨"Succeeded", ""⟩]).Status.GetCondition Succeeded = some ⟨"Succeeded", ""⟩ ∧
      ¬ ("" = ConditionTrue ∨ "" = ConditionFalse) := by
  decide

/-- C10, amended: if `CancelCommand.Run` returns the already-finished error,
then the run was fetched, its Succeeded condition is present and the status of
that condition is not Unknown. -/
theorem cancel_rejection_only_when_not_unknown {σ : Type} (c : CancelCommand) (s : String)
    (params : CancelParams σ) (h : (c.Run s params).1 = some (alreadyFinished c.name)) :
    ∃ br cd, params.ShipwrightClientSet = none ∧
      params.Get params.Namespace c.name = .ok br ∧
      br.Status.GetCondition Succeeded = some cd ∧ cd.Status ≠ ConditionUnknown := by
  rcases Run_paths c s params with ⟨_, _, e1⟩ | ⟨_, _, _, e1⟩ | ⟨br, hcs, hget, hg, _⟩ |
    ⟨_, _, _, _, _, _, e1⟩ | ⟨_, _, _, _, _, _, e1⟩
  · rw [e1] at h; simp [alreadyFinished] at h
  · rw [e1] at h
    simp only [alreadyFinished, Option.some.injEq, GoError.errorf.injEq] at h
    rw [String.append_assoc "failed to cancel BuildRun "] at h
    exact absurd h (retrieve_ne_cancel _ _ _)
  · obtain ⟨cd, hcd, hne⟩ := (finishedGuard_true _).1 hg
    exact ⟨br, cd, hcs, hget, hcd, hne⟩
  · rw [e1] at h; simp [alreadyFinished] at h
  · rw [e1] at h; simp at h

theorem cancel_rejection_only_when_not_unknown_witness :
    ∃ br cd, (demoCancelParams [⟨"Succeeded", ""⟩]).ShipwrightClientSet = none ∧
      (demoCancelParams [⟨"Succeeded", ""⟩]).Get "ns" "demo" = .ok br ∧
      br.Status.GetCondition Succeeded = some cd ∧ cd.Status ≠ ConditionUnknown :=
  cancel_rejection_only_when_not_unknown ⟨"demo"⟩ "BuildRunCanceled"
    (demoCancelParams [⟨"Succeeded", ""⟩]) (by decide)

/-! ## The paths of `RunCommand.Run` -/

section RunPaths

variable {σ : Type} (r : RunCommand σ) (params : RunParams σ)

theorem Run_nilSpec (hspec : r.buildRunSpec = none) : r.Run params = (.panicked, []) := by
  simp [RunCommand.Run, deref, hspec]

theorem Run_createFails (spec : σ) (br1 : BuildRun σ) (err : String)
    (hspec : r.buildRunSpec = some spec)
    (hcreate : params.Create (r.newBuildRun params spec) = (br1, some err)) :
    r.Run params = (.returned (some (.external err)), [.create (r.newBuildRun params spec)]) := by
  simp [RunCommand.Run, deref, hspec, hcreate]

theorem Run_noFollow (spec : σ) (br1 : BuildRun σ)
    (hspec : r.buildRunSpec = some spec)
    (hcreate : params.Create (r.newBuildRun params spec) = (br1, none))
    (hfollow : r.Follow = false) :
    r.Run params = (.returned none,
      [.create (r.newBuildRun params spec),
       .fprintf ("BuildRun created " ++ params.Quote br1.Name ++ " for build " ++
        params.Quote r.buildName ++ "\n")]) := by
  simp [RunCommand.Run, deref, hspec, hcreate, hfollow]

theorem Run_runTrackerFails (spec : σ) (br1 : BuildRun σ) (p : Option (BuildRun σ))
    (err : String)
    (hspec : r.buildRunSpec = some spec)
    (hcreate : params.Create (r.newBuildRun params spec) = (br1, none))
    (hfollow : r.Follow = true)
    (hrun : params.waitForBuildRunToHaveTaskRun br1.Name = (p, some err)) :
    r.Run params = (.returned (some (.external err)),
      [.create (r.newBuildRun params spec), .runTracker br1.Name]) := by
  simp [RunCommand.Run, deref, hspec, hcreate, hfollow, hrun]

theorem Run_runNil (spec : σ) (br1 : BuildRun σ)
    (hspec : r.buildRunSpec = some spec)
    (hcreate : params.Create (r.newBuildRun params spec) = (br1, none))
    (hfollow : r.Follow = true)
    (hrun : params.waitForBuildRunToHaveTaskRun br1.Name = (none, none)) :
    r.Run params =
      (.returned (some (.errorf "build run watch function exitted unexpectedly")),
        [.create (r.newBuildRun params spec), .runTracker br1.Name]) := by
  simp [RunCommand.Run, deref, hspec, hcreate, hfollow, hrun]

theorem Run_runDeleted (spec : σ) (br1 b : BuildRun σ)
    (hspec : r.buildRunSpec = some spec)
    (hcreate : params.Create (r.newBuildRun params spec) = (br1, none))
    (hfollow : r.Follow = true)
    (hrun : params.waitForBuildRunToHaveTaskRun br1.Name = (some b, none))
    (hdel : b.DeletionTimestamp ≠ none) :
    r.Run params =
      (.returned (some (.errorf ("build run " ++ b.Name ++
        " was deleted before it terminated"))),
        [.create (r.newBuildRun params spec), .runTracker br1.Name]) := by
  have hd : b.DeletionTimestamp.isSome = true := Option.isSome_iff_ne_none.2 hdel
  simp [RunCommand.Run, deref, hspec, hcreate, hfollow, hrun, hd]

theorem Run_runNoTaskRef (spec : σ) (br1 b : BuildRun σ)
    (hspec : r.buildRunSpec = some spec)
    (hcreate : params.Create (r.newBuildRun params spec) = (br1, none))
    (hfollow : r.Follow = true)
    (hrun : params.waitForBuildRunToHaveTaskRun br1.Name = (some b, none))
    (hdel : b.DeletionTimestamp = none)
    (href : b.Status.LatestTaskRunRef = none) :
    r.Run params =
      (.returned (some (.errorf ("build run " ++ b.Name ++
        " terminated before task run ref was set, inspect build run status for details"))),
        [.create (r.newBuildRun params spec), .runTracker br1.Name]) := by
  simp [RunCommand.Run, deref, hspec, hcreate, hfollow, hrun, hdel, href]

theorem Run_taskTrackerFails (spec : σ) (br1 b : BuildRun σ) (n : String)
    (q : Option TaskRun) (err : String)
    (hspec : r.buildRunSpec = some spec)
    (hcreate : params.Create (r.newBuildRun params spec) = (br1, none))
    (hfollow : r.Follow = true)
    (hrun : params.waitForBuildRunToHaveTaskRun br1.Name = (some b, none))
    (hdel : b.DeletionTimestamp = none)
    (href : b.Status.LatestTaskRunRef = some n)
    (htask : params.WaitForTaskRunToHavePod n = (q, some err)) :
    r.Run params = (.returned (some (.external err)),
      [.create (r.newBuildRun params spec), .runTracker br1.Name, .taskTracker n]) := by
  simp [RunCommand.Run, deref, hspec, hcreate, hfollow, hrun, hdel, href, htask]

theorem Run_taskNil (spec : σ) (br1 b : BuildRun σ) (n : String)
    (hspec : r.buildRunSpec = some spec)
    (hcreate : params.Create (r.newBuildRun params spec) = (br1, none))
    (hfollow : r.Follow = true)
    (hrun : params.waitForBuildRunToHaveTaskRun br1.Name = (some b, none))
    (hdel : b.DeletionTimestamp = none)
    (href : b.Status.LatestTaskRunRef = some n)
    (htask : params.WaitForTaskRunToHavePod n = (none, none)) :
    r.Run params =
      (.returned (some (.errorf "task run watch function exitted unexpectedly")),
        [.create (r.newBuildRun params spec), .runTracker br1.Name, .taskTracker n]) := by
  simp [RunCommand.Run, deref, hspec, hcreate, hfollow, hrun, hdel, href, htask]

theorem Run_taskDeleted (spec : σ) (br1 b : BuildRun σ) (n : String) (task : TaskRun)
    (hspec : r.buildRunSpec = some spec)
    (hcreate : params.Create (r.newBuildRun params spec) = (br1, none))
    (hfollow : r.Follow = true)
    (hrun : params.waitForBuildRunToHaveTaskRun br1.Name = (some b, none))
    (hdel : b.DeletionTimestamp = none)
    (href : b.Status.LatestTaskRunRef = some n)
    (htask : params.WaitForTaskRunToHavePod n = (some task, none))
    (htdel : task.DeletionTimestamp ≠ none) :
    r.Run params =
      (.returned (some (.errorf ("task run " ++ task.Name ++
        " was deleted before it terminated"))),
        [.create (r.newBuildRun params spec), .runTracker br1.Name, .taskTracker n]) := by
  have hd : task.DeletionTimestamp.isSome = true := Option.isSome_iff_ne_none.2 htdel
  simp [RunCommand.Run, deref, hspec, hcreate, hfollow, hrun, hdel, href, htask, hd]

theorem Run_kubeFails (spec : σ) (br1 b : BuildRun σ) (n : String) (task : TaskRun)
    (err : String)
    (hspec : r.buildRunSpec = some spec)
    (hcreate : params.Create (r.newBuildRun params spec) = (br1, none))
    (hfollow : r.Follow = true)
    (hrun : params.waitForBuildRunToHaveTaskRun br1.Name = (some b, none))
    (hdel : b.DeletionTimestamp = none)
    (href : b.Status.LatestTaskRunRef = some n)
    (htask : params.WaitForTaskRunToHavePod n = (some task, none))
    (htdel : task.DeletionTimestamp = none)
    (hkube : params.ClientSet = some err) :
    r.Run params =
      (.returned (some (.errorf ("could not build k8s client: " ++ err))),
        [.create (r.newBuildRun params spec), .runTracker br1.Name, .taskTracker n,
         .clientSet]) := by
  simp [RunCommand.Run, deref, hspec, hcreate, hfollow, hrun, hdel, href, htask, htdel, hkube]

theorem Run_tailed (spec : σ) (br1 b : BuildRun σ) (n : String) (task : TaskRun)
    (hspec : r.buildRunSpec = some spec)
    (hcreate : params.Create (r.newBuildRun params spec) = (br1, none))
    (hfollow : r.Follow = true)
    (hrun : params.waitForBuildRunToHaveTaskRun br1.Name = (some b, none))
    (hdel : b.DeletionTimestamp = none)
    (href : b.Status.LatestTaskRunRef = some n)
    (htask : params.WaitForTaskRunToHavePod n = (some task, none))
    (htdel : task.DeletionTimestamp = none)
    (hkube : params.ClientSet = none) :
    r.Run params =
      (.returned none,
        [.create (r.newBuildRun params spec), .runTracker br1.Name, .taskTracker n,
         .clientSet, .tail task.Status.PodName n b.Namespace]) := by
  simp [RunCommand.Run, deref, hspec, hcreate, hfollow, hrun, hdel, href, htask, htdel, hkube]

/-- Case analysis on a call of `RunCommand.Run`: a property of the result
holds as soon as it holds on each of the twelve paths. -/
theorem Run_cases (P : Outcome × List (RunEvent σ) → Prop)
    (nilSpec : r.buildRunSpec = none → P (.panicked, []))
    (createFails : ∀ spec br1 err, r.buildRunSpec = some spec →
      params.Create (r.newBuildRun params spec) = (br1, some err) →
      P (.returned (some (.external err)), [.create (r.newBuildRun params spec)]))
    (noFollow : ∀ spec br1, r.buildRunSpec = some spec →
      params.Create (r.newBuildRun params spec) = (br1, none) → r.Follow = false →
      P (.returned none,
        [.create (r.newBuildRun params spec),
         .fprintf ("BuildRun created " ++ params.Quote br1.Name ++ " for build " ++
          params.Quote r.buildName ++ "\n")]))
    (runTrackerFails : ∀ spec br1 p err, r.buildRunSpec = some spec →
      params.Create (r.newBuildRun params spec) = (br1, none) → r.Follow = true →
      params.waitForBuildRunToHaveTaskRun br1.Name = (p, some err) →
      P (.returned (some (.external err)),
        [.create (r.newBuildRun params spec), .runTracker br1.Name]))
    (runNil : ∀ spec br1, r.buildRunSpec = some spec →
      params.Create (r.newBuildRun params spec) = (br1, none) → r.Follow = true →
      params.waitForBuildRunToHaveTaskRun br1.Name = (none, none) →
      P (.returned (some (.errorf "build run watch function exitted unexpectedly")),
        [.create (r.newBuildRun params spec), .runTracker br1.Name]))
    (runDeleted : ∀ spec br1 b, r.buildRunSpec = some spec →
      params.Create (r.newBuildRun params spec) = (br1, none) → r.Follow = true →
      params.waitForBuildRunToHaveTaskRun br1.Name = (some b, none) →
      b.DeletionTimestamp ≠ none →
      P (.returned (some (.errorf ("build run " ++ b.Name ++
          " was deleted before it terminated"))),
        [.create (r.newBuildRun params spec), .runTracker br1.Name]))
    (runNoTaskRef : ∀ spec br1 b, r.buildRunSpec = some spec →
      params.Create (r.newBuildRun params spec) = (br1, none) → r.Follow = true →
      params.waitForBuildRunToHaveTaskRun br1.Name = (some b, none) →
      b.DeletionTimestamp = none → b.Status.LatestTaskRunRef = none →
      P (.returned (some (.errorf ("build run " ++ b.Name ++
          " terminated before task run ref was set, inspect build run status for details"))),
        [.create (r.newBuildRun params spec), .runTracker br1.Name]))
    (taskTrackerFails : ∀ spec br1 b n q err, r.buildRunSpec = some spec →
      params.Create (r.newBuildRun params spec) = (br1, none) → r.Follow = true →
      params.waitForBuildRunToHaveTaskRun br1.Name = (some b, none) →
      b.DeletionTimestamp = none → b.Status.LatestTaskRunRef = some n →
      params.WaitForTaskRunToHavePod n = (q, some err) →
      P (.returned (some (.external err)),
        [.create (r.newBuildRun params spec), .runTracker br1.Name, .taskTracker n]))
    (taskNil : ∀ spec br1 b n, r.buildRunSpec = some spec →
      params.Create (r.newBuildRun params spec) = (br1, none) → r.Follow = true →
      params.waitForBuildRunToHaveTaskRun br1.Name = (some b, none) →
      b.DeletionTimestamp = none → b.Status.LatestTaskRunRef = some n →
      params.WaitForTaskRunToHavePod n = (none, none) →
      P (.returned (some (.errorf "task run watch function exitted unexpectedly")),
        [.create (r.newBuildRun params spec), .runTracker br1.Name, .taskTracker n]))
    (taskDeleted : ∀ spec br1 b n task, r.buildRunSpec = some spec →
      params.Create (r.newBuildRun params spec) = (br1, none) → r.Follow = true →
      params.waitForBuildRunToHaveTaskRun br1.Name = (some b, none) →
      b.DeletionTimestamp = none → b.Status.LatestTaskRunRef = some n →
      params.WaitForTaskRunToHavePod n = (some task, none) →
      task.DeletionTimestamp ≠ none →
      P (.returned (some (.errorf ("task run " ++ task.Name ++
          " was deleted before it terminated"))),
        [.create (r.newBuildRun params spec), .runTracker br1.Name, .taskTracker n]))
    (kubeFails : ∀ spec br1 b n task err, r.buildRunSpec = some spec →
      params.Create (r.newBuildRun params spec) = (br1, none) → r.Follow = true →
      params.waitForBuildRunToHaveTaskRun br1.Name = (some b, none) →
      b.DeletionTimestamp = none → b.Status.LatestTaskRunRef = some n →
      params.WaitForTaskRunToHavePod n = (some task, none) →
      task.DeletionTimestamp = none → params.ClientSet = some err →
      P (.returned (some (.errorf ("could not build k8s client: " ++ err))),
        [.create (r.newBuildRun params spec), .runTracker br1.Name, .taskTracker n,
         .clientSet]))
    (tailed : ∀ spec br1 b n task, r.buildRunSpec = some spec →
      params.Create (r.newBuildRun params spec) = (br1, none) → r.Follow = true →
      params.waitForBuildRunToHaveTaskRun br1.Name = (some b, none) →
      b.DeletionTimestamp = none → b.Status.LatestTaskRunRef = some n →
      params.WaitForTaskRunToHavePod n = (some task, none) →
      task.DeletionTimestamp = none → params.ClientSet = none →
      P (.returned none,
        [.create (r.newBuildRun params spec), .runTracker br1.Name, .taskTracker n,
         .clientSet, .tail task.Status.PodName n b.Namespace])) :
    P (r.Run params) := by
  cases hspec : r.buildRunSpec with
  | none => rw [Run_nilSpec r params hspec]; exact nilSpec hspec
  | some spec =>
  obtain ⟨br1, cerr, hcreate⟩ : ∃ br1 cerr, params.Create (r.newBuildRun params spec) =
    (br1, cerr) := ⟨_, _, rfl⟩
  cases cerr with
  | some err =>
    rw [Run_createFails r params spec br1 err hspec hcreate]
    exact createFails spec br1 err hspec hcreate
  | none =>
  cases hfollow : r.Follow with
  | false =>
    rw [Run_noFollow r params spec br1 hspec hcreate hfollow]
    exact noFollow spec br1 hspec hcreate hfollow
  | true =>
  obtain ⟨p, rerr, hrun⟩ : ∃ p rerr, params.waitForBuildRunToHaveTaskRun br1.Name =
    (p, rerr) := ⟨_, _, rfl⟩
  cases rerr with
  | some err =>
    rw [Run_runTrackerFails r params spec br1 p err hspec hcreate hfollow hrun]
    exact runTrackerFails spec br1 p err hspec hcreate hfollow hrun
  | none =>
  cases p with
  | none =>
    rw [Run_runNil r params spec br1 hspec hcreate hfollow hrun]
    exact runNil spec br1 hspec hcreate hfollow hrun
  | some b =>
  by_cases hdel : b.DeletionTimestamp = none
  swap
  · rw [Run_runDeleted r params spec br1 b hspec hcreate hfollow hrun hdel]
    exact runDeleted spec br1 b hspec hcreate hfollow hrun hdel
  cases href : b.Status.LatestTaskRunRef with
  | none =>
    rw [Run_runNoTaskRef r params spec br1 b hspec hcreate hfollow hrun hdel href]
    exact runNoTaskRef spec br1 b hspec hcreate hfollow hrun hdel href
  | some n =>
  obtain ⟨q, terr, htask⟩ : ∃ q terr, params.WaitForTaskRunToHavePod n = (q, terr) :=
    ⟨_, _, rfl⟩
  cases terr with
  | some err =>
    rw [Run_taskTrackerFails r params spec br1 b n q err hspec hcreate hfollow hrun hdel href
      htask]
    exact taskTrackerFails spec br1 b n q err hspec hcreate hfollow hrun hdel href htask
  | none =>
  cases q with
  | none =>
    rw [Run_taskNil r params spec br1 b n hspec hcreate hfollow hrun hdel href htask]
    exact taskNil spec br1 b n hspec hcreate hfollow hrun hdel href htask
  | some task =>
  by_cases htdel : task.DeletionTimestamp = none
  swap
  · rw [Run_taskDeleted r params spec br1 b n task hspec hcreate hfollow hrun hdel href htask
      htdel]
    exact taskDeleted spec br1 b n task hspec hcreate hfollow hrun hdel href htask htdel
  cases hkube : params.ClientSet with
  | some err =>
    rw [Run_kubeFails r params spec br1 b n task err hspec hcreate hfollow hrun hdel href htask
      htdel hkube]
    exact kubeFails spec br1 b n task err hspec hcreate hfollow hrun hdel href htask htdel hkube
  | none =>
    rw [Run_tailed r params spec br1 b n task hspec hcreate hfollow hrun hdel href htask
      htdel hkube]
    exact tailed spec br1 b n task hspec hcreate hfollow hrun hdel href htask htdel hkube

end RunPaths

/-! ## Theorems: `build run` -/

/-- C7: without Follow, when the create call succeeds `RunCommand.Run` returns
nil, writes exactly one message, the `BuildRun created` line, and calls neither
tracker nor the log attacher; when the create call fails, whatever Follow is,
Run returns that error, writes nothing and calls no tracker and no attacher. -/
theorem run_create_then_stop {σ : Type} (r : RunCommand σ) (params : RunParams σ) (spec : σ)
    (hspec : r.buildRunSpec = some spec) :
    (∀ br1, params.Create (r.newBuildRun params spec) = (br1, none) → r.Follow = false →
      (r.Run params).1 = .returned none ∧
      writes (r.Run params).2 = ["BuildRun created " ++ params.Quote br1.Name ++
        " for build " ++ params.Quote r.buildName ++ "\n"] ∧
      followSteps (r.Run params).2 = []) ∧
    (∀ br1 err, params.Create (r.newBuildRun params spec) = (br1, some err) →
      (r.Run params).1 = .returned (some (.external err)) ∧
      writes (r.Run params).2 = [] ∧
      followSteps (r.Run params).2 = []) := by
  constructor
  · intro br1 hcreate hfollow
    rw [Run_noFollow r params spec br1 hspec hcreate hfollow]
    simp [writes, followSteps]
  · intro br1 err hcreate
    rw [Run_createFails r params spec br1 err hspec hcreate]
    simp [writes, followSteps]

theorem run_create_then_stop_witness :
    (demoCommand false).buildRunSpec = some () ∧
    ((demoCommand false).Run (demoRunParams none (none, none) (none, none) none)).1 =
      .returned none ∧
    writes ((demoCommand false).Run (demoRunParams none (none, none) (none, none) none)).2 =
      ["BuildRun created \"demo-xyz\" for build \"demo\"\n"] ∧
    followSteps ((demoCommand false).Run
      (demoRunParams none (none, none) (none, none) none)).2 = [] :=
  ⟨rfl, (run_create_then_stop (demoCommand false)
    (demoRunParams none (none, none) (none, none) none) () rfl).1 _ rfl rfl⟩

/-- C4: with Follow set and the run created, the result `(p, err)` of the run
tracker is handled in program order: a non-nil `err` is returned as it is;
otherwise a nil run gives an error; otherwise a run with a deletion timestamp
gives the `was deleted before it terminated` error with the run name;
otherwise a run without `LatestTaskRunRef` gives the `terminated before task
run ref was set` error with the run name.  Run never panics, and the task
tracker is called with a name only when that name is the run's
`LatestTaskRunRef`. -/
theorem run_follow_run_tracker_result {σ : Type} (r : RunCommand σ) (params : RunParams σ)
    (spec : σ) (br1 : BuildRun σ) (p : Option (BuildRun σ)) (err : Option String)
    (hspec : r.buildRunSpec = some spec)
    (hcreate : params.Create (r.newBuildRun params spec) = (br1, none))
    (hfollow : r.Follow = true)
    (hrun : params.waitForBuildRunToHaveTaskRun br1.Name = (p, err)) :
    (∀ e, err = some e → (r.Run params).1 = .returned (some (.external e))) ∧
    (err = none → p = none → (r.Run params).1 =
      .returned (some (.errorf "build run watch function exitted unexpectedly"))) ∧
    (∀ b, err = none → p = some b → b.DeletionTimestamp ≠ none →
      (r.Run params).1 = .returned (some (.errorf ("build run " ++ b.Name ++
        " was deleted before it terminated"))) ∧
      embeds ("build run " ++ b.Name ++ " was deleted before it terminated") b.Name) ∧
    (∀ b, err = none → p = some b → b.DeletionTimestamp = none →
      b.Status.LatestTaskRunRef = none →
      (r.Run params).1 = .returned (some (.errorf ("build run " ++ b.Name ++
        " terminated before task run ref was set, inspect build run status for details"))) ∧
      embeds ("build run " ++ b.Name ++
        " terminated before task run ref was set, inspect build run status for details")
        b.Name) ∧
    (r.Run params).1 ≠ .panicked ∧
    (∀ n, RunEvent.taskTracker n ∈ (r.Run params).2 →
      ∃ b, p = some b ∧ b.Status.LatestTaskRunRef = some n) := by
  refine ⟨?_, ?_, ?_, ?_, ?_⟩
  · intro e he
    subst he
    rw [Run_runTrackerFails r params spec br1 p e hspec hcreate hfollow hrun]
  · intro he hp
    subst he hp
    rw [Run_runNil r params spec br1 hspec hcreate hfollow hrun]
  · intro b he hp hdel
    subst he hp
    rw [Run_runDeleted r params spec br1 b hspec hcreate hfollow hrun hdel]
    exact ⟨rfl, embeds_mid _ _ _⟩
  · intro b he hp hdel href
    subst he hp
    rw [Run_runNoTaskRef r params spec br1 b hspec hcreate hfollow hrun hdel href]
    exact ⟨rfl, embeds_mid _ _ _⟩
  · refine Run_cases r params
      (fun res => res.1 ≠ .panicked ∧ ∀ n, RunEvent.taskTracker n ∈ res.2 →
        ∃ b, p = some b ∧ b.Status.LatestTaskRunRef = some n)
      ?_ ?_ ?_ ?_ ?_ ?_ ?_ ?_ ?_ ?_ ?_ ?_ <;> intros <;> simp_all <;>
      exact ⟨_, hrun.1.symm, by assumption⟩

theorem run_follow_run_tracker_result_witness :
    (demoCommand true).buildRunSpec = some () ∧
    ((demoCommand true).Run (demoRunParams none
      (some { trackedRun with Status := {} }, none) (none, none) none)).1 =
        .returned (some (.errorf ("build run " ++ "demo-xyz" ++
          " terminated before task run ref was set, inspect build run status for details")))
    ∧ ((demoCommand true).Run (demoRunParams none
      (some { trackedRun with Status := {} }, none) (none, none) none)).1 ≠ .panicked :=
  ⟨rfl,
    ((run_follow_run_tracker_result (demoCommand true)
      (demoRunParams none (some { trackedRun with Status := {} }, none) (none, none) none)
      () _ _ _ rfl rfl rfl rfl).2.2.2.1 _ rfl rfl rfl rfl).1,
    (run_follow_run_tracker_result (demoCommand true)
      (demoRunParams none (some { trackedRun with Status := {} }, none) (none, none) none)
      () _ _ _ rfl rfl rfl rfl).2.2.2.2.1⟩

/-- C5, evaluated at the failing input: the task tracker returns a task that is
not deleted and has an empty `PodName`; `RunCommand.Run` starts the log attacher
with the empty pod name and returns nil. -/
theorem run_follow_task_without_pod :
    (demoCommand true).Run
        (demoRunParams none (some trackedRun, none) (some (trackedTask ""), none) none) =
      (.returned none,
        [.create { GenerateName := "demo-", Spec := () },
         .runTracker "demo-xyz", .taskTracker "demo-xyz-task", .clientSet,
         .tail "" "demo-xyz-task" "ns"]) := by
  decide

/-- C6, refuted as stated: both trackers succeed and the log attacher fails;
`RunCommand.Run` returns nil. -/
theorem run_follow_attach_failure_dropped :
    (demoRunParams none (some trackedRun, none) (some (trackedTask "pod-1"), none)
        (some "pod pod-1 is still pending after 10 attempts")).Tail
        "pod-1" "demo-xyz-task" "ns" = some "pod pod-1 is still pending after 10 attempts" ∧
    (demoCommand true).Run
        (demoRunParams none (some trackedRun, none) (some (trackedTask "pod-1"), none)
          (some "pod pod-1 is still pending after 10 attempts")) =
      (.returned none,
        [.create { GenerateName := "demo-", Spec := () },
         .runTracker "demo-xyz", .taskTracker "demo-xyz-task", .clientSet,
         .tail "pod-1" "demo-xyz-task" "ns"]) := by
  decide

/-- C6, amended: with Follow set, when both trackers succeed (each returns,
without error, an object that is not deleted, the run with its task-run
reference set), `RunCommand.Run` returns an error exactly when the Kubernetes
client cannot be built, and then the log attacher is not started; when the
client is built, Run starts the log attacher and returns nil, whatever the
outcome of the attacher. -/
theorem run_follow_after_trackers {σ : Type} (r : RunCommand σ) (params : RunParams σ)
    (spec : σ) (br1 b : BuildRun σ) (n : String) (task : TaskRun)
    (hspec : r.buildRunSpec = some spec)
    (hcreate : params.Create (r.newBuildRun params spec) = (br1, none))
    (hfollow : r.Follow = true)
    (hrun : params.waitForBuildRunToHaveTaskRun br1.Name = (some b, none))
    (hdel : b.DeletionTimestamp = none)
    (href : b.Status.LatestTaskRunRef = some n)
    (htask : params.WaitForTaskRunToHavePod n = (some task, none))
    (htdel : task.DeletionTimestamp = none) :
    (∀ err, params.ClientSet = some err →
      (r.Run params).1 = .returned (some (.errorf ("could not build k8s client: " ++ err))) ∧
      followSteps (r.Run params).2 = [.runTracker br1.Name, .taskTracker n]) ∧
    (∀ outcome, params.ClientSet = none →
      params.Tail task.Status.PodName n b.Namespace = outcome →
      (r.Run params).1 = .returned none ∧
      followSteps (r.Run params).2 =
        [.runTracker br1.Name, .taskTracker n, .tail task.Status.PodName n b.Namespace]) := by
  constructor
  · intro err hkube
    rw [Run_kubeFails r params spec br1 b n task err hspec hcreate hfollow hrun hdel href
      htask htdel hkube]
    simp [followSteps]
  · intro _ hkube _
    rw [Run_tailed r params spec br1 b n task hspec hcreate hfollow hrun hdel href htask
      htdel hkube]
    simp [followSteps]

theorem run_follow_after_trackers_witness :
    (demoCommand true).buildRunSpec = some () ∧
    ((demoCommand true).Run
      (demoRunParams none (some trackedRun, none) (some (trackedTask "pod-1"), none)
        (some "pod pod-1 is still pending after 10 attempts"))).1 = .returned none :=
  ⟨rfl, ((run_follow_after_trackers (demoCommand true)
    (demoRunParams none (some trackedRun, none) (some (trackedTask "pod-1"), none)
      (some "pod pod-1 is still pending after 10 attempts"))
    () _ trackedRun "demo-xyz-task" (trackedTask "pod-1") rfl rfl rfl rfl rfl rfl rfl rfl).2
    _ rfl rfl).1⟩

/-- C9: in every call of `RunCommand.Run` the tracker and attacher calls form
an initial part of the sequence run tracker, task tracker, log attacher, each
made at most once.  The task tracker is called only after the run tracker
returned, without error, a run that is not deleted and whose
`LatestTaskRunRef` is set, and it is called with that name.  The log attacher
is called only after the task tracker then returned, without error, a task
that is not deleted, and it is called with that task's `PodName`, the same
task-run name and the namespace of the run the run tracker returned. -/
theorem run_follow_steps_in_order {σ : Type} (r : RunCommand σ) (params : RunParams σ) :
    (followSteps (r.Run params).2 = [] ∨
      (∃ n1, followSteps (r.Run params).2 = [.runTracker n1]) ∨
      (∃ n1 n2, followSteps (r.Run params).2 = [.runTracker n1, .taskTracker n2]) ∨
      (∃ n1 n2 pod ns, followSteps (r.Run params).2 =
        [.runTracker n1, .taskTracker n2, .tail pod n2 ns])) ∧
    (∀ n, RunEvent.taskTracker n ∈ (r.Run params).2 →
      ∃ spec br1 b, r.buildRunSpec = some spec ∧
        params.Create (r.newBuildRun params spec) = (br1, none) ∧
        params.waitForBuildRunToHaveTaskRun br1.Name = (some b, none) ∧
        b.DeletionTimestamp = none ∧ b.Status.LatestTaskRunRef = some n) ∧
    (∀ pod n ns, RunEvent.tail pod n ns ∈ (r.Run params).2 →
      ∃ spec br1 b task, r.buildRunSpec = some spec ∧
        params.Create (r.newBuildRun params spec) = (br1, none) ∧
        params.waitForBuildRunToHaveTaskRun br1.Name = (some b, none) ∧
        b.DeletionTimestamp = none ∧ b.Status.LatestTaskRunRef = some n ∧
        params.WaitForTaskRunToHavePod n = (some task, none) ∧
        task.DeletionTimestamp = none ∧
        pod = task.Status.PodName ∧ ns = b.Namespace) := by
  refine Run_cases r params
    (fun res =>
      (followSteps res.2 = [] ∨
        (∃ n1, followSteps res.2 = [.runTracker n1]) ∨
        (∃ n1 n2, followSteps res.2 = [.runTracker n1, .taskTracker n2]) ∨
        (∃ n1 n2 pod ns, followSteps res.2 =
          [.runTracker n1, .taskTracker n2, .tail pod n2 ns])) ∧
      (∀ n, RunEvent.taskTracker n ∈ res.2 →
        ∃ spec br1 b, r.buildRunSpec = some spec ∧
          params.Create (r.newBuildRun params spec) = (br1, none) ∧
          params.waitForBuildRunToHaveTaskRun br1.Name = (some b, none) ∧
          b.DeletionTimestamp = none ∧ b.Status.LatestTaskRunRef = some n) ∧
      (∀ pod n ns, RunEvent.tail pod n ns ∈ res.2 →
        ∃ spec br1 b task, r.buildRunSpec = some spec ∧
          params.Create (r.newBuildRun params spec) = (br1, none) ∧
          params.waitForBuildRunToHaveTaskRun br1.Name = (some b, none) ∧
          b.DeletionTimestamp = none ∧ b.Status.LatestTaskRunRef = some n ∧
          params.WaitForTaskRunToHavePod n = (some task, none) ∧
          task.DeletionTimestamp = none ∧
          pod = task.Status.PodName ∧ ns = b.Namespace))
    ?_ ?_ ?_ ?_ ?_ ?_ ?_ ?_ ?_ ?_ ?_ ?_
  · intro _
    simp [followSteps]
  · intro _ _ _ _ _
    simp [followSteps]
  · intro _ _ _ _ _
    simp [followSteps]
  · intro _ _ _ _ _ _ _ _
    simp [followSteps]
  · intro _ _ _ _ _ _
    simp [followSteps]
  · intro _ _ _ _ _ _ _ _
    simp [followSteps]
  · intro _ _ _ _ _ _ _ _ _
    simp [followSteps]
  · intro spec br1 b n _ _ hs hc _ hr hd hre _
    refine ⟨by simp [followSteps], ?_, by simp⟩
    intro n2 hn2
    simp at hn2
    subst hn2
    exact ⟨spec, br1, b, hs, hc, hr, hd, hre⟩
  · intro spec br1 b n hs hc _ hr hd hre _
    refine ⟨by simp [followSteps], ?_, by simp⟩
    intro n2 hn2
    simp at hn2
    subst hn2
    exact ⟨spec, br1, b, hs, hc, hr, hd, hre⟩
  · intro spec br1 b n _ hs hc _ hr hd hre _ _
    refine ⟨by simp [followSteps], ?_, by simp⟩
    intro n2 hn2
    simp at hn2
    subst hn2
    exact ⟨spec, br1, b, hs, hc, hr, hd, hre⟩
  · intro spec br1 b n _ _ hs hc _ hr hd hre _ _ _
    refine ⟨by simp [followSteps], ?_, by simp⟩
    intro n2 hn2
    simp at hn2
    subst hn2
    exact ⟨spec, br1, b, hs, hc, hr, hd, hre⟩
  · intro spec br1 b n task hs hc _ hr hd hre ht htd _
    refine ⟨by simp [followSteps], ?_, ?_⟩
    · intro n2 hn2
      simp at hn2
      subst hn2
      exact ⟨spec, br1, b, hs, hc, hr, hd, hre⟩
    · intro pod n2 ns hmem
      simp at hmem
      obtain ⟨h1, h2, h3⟩ := hmem
      subst h1 h2 h3
      exact ⟨spec, br1, b, task, hs, hc, hr, hd, hre, ht, htd, rfl, rfl⟩

theorem run_follow_steps_in_order_witness :
    RunEvent.tail "pod-1" "demo-xyz-task" "ns" ∈ ((demoCommand true).Run
      (demoRunParams none (some trackedRun, none) (some (trackedTask "pod-1"), none) none)).2 ∧
    ∃ spec br1 b task, (demoCommand true).buildRunSpec = some spec ∧
      (demoRunParams none (some trackedRun, none) (some (trackedTask "pod-1"), none)
        none).Create ((demoCommand true).newBuildRun (demoRunParams none
          (some trackedRun, none) (some (trackedTask "pod-1"), none) none) spec) =
        (br1, none) ∧
      (demoRunParams none (some trackedRun, none) (some (trackedTask "pod-1"), none)
        none).waitForBuildRunToHaveTaskRun br1.Name = (some b, none) ∧
      b.DeletionTimestamp = none ∧ b.Status.LatestTaskRunRef = some "demo-xyz-task" ∧
      (demoRunParams none (some trackedRun, none) (some (trackedTask "pod-1"), none)
        none).WaitForTaskRunToHavePod "demo-xyz-task" = (some task, none) ∧
      task.DeletionTimestamp = none ∧
      "pod-1" = task.Status.PodName ∧ "ns" = b.Namespace :=
  ⟨by decide, (run_follow_steps_in_order (demoCommand true)
    (demoRunParams none (some trackedRun, none) (some (trackedTask "pod-1"), none) none)).2.2
    "pod-1" "demo-xyz-task" "ns" (by decide)⟩

end ShpCli
